import Mathlib

/-!
Verification of the Session/Token Continuity Subsystem of the Fitly browser
extension (src/background/auth_state_manager.js and
src/background/session_ready_gate.js).

The JavaScript is shallowly embedded: every external awaited call (the Supabase
identity client, chrome.storage.local, fetch) is modelled by an outcome recorded
in an environment structure, and each exported function becomes a total Lean
function of that environment.  JavaScript exceptions become explicit `threw`
outcomes; `Date.now()` becomes an explicit `now : Int` argument in epoch
milliseconds; `Math.floor` of an integer quotient becomes `Int.fdiv`.
-/

namespace Fitly

/-- A Supabase session object as read from supabase.auth.getSession() /
refreshSession(): bearer access token, refresh token, and optional absolute
expiry in epoch seconds (the code guards every use with
`session.expires_at ? _ : _`). -/
structure Session where
  access_token : String
  refresh_token : String
  expires_at : Option Int
  deriving Repr, DecidableEq

/-- Outcome of an awaited Supabase call that returns `{ data, error }`:
either a payload with no error, a returned error object (its message), or a
thrown exception. -/
inductive Res (α : Type) where
  | ok : α → Res α
  | err : String → Res α
  | threw : Res α
  deriving Repr, DecidableEq

/-- The constant CLOCK_SKEW_TOLERANCE_S = 60 from auth_state_manager.js. -/
def CLOCK_SKEW_TOLERANCE_S : Int := 60

/-- Models `session.expires_at ? session.expires_at * 1000 : 0`.  A stored
expiry of 0 is JS-falsy and takes the `: 0` branch, which coincides with
`0 * 1000`, so no separate case is needed. -/
def expiresAtMs : Option Int → Int
  | some v => v * 1000
  | none => 0

/-- Models `Math.floor((expiresAtMs - Date.now()) / 1000)` — the TTL in
seconds computed on every read path. -/
def ttlOf (expires_at : Option Int) (now : Int) : Int :=
  (expiresAtMs expires_at - now).fdiv 1000

/-- Models the JS truthiness test `session?.access_token`: a token is usable
iff the session object exists and its access_token is a non-empty string. -/
def sessionToken : Option Session → Option String
  | some s => if s.access_token = "" then none else some s.access_token
  | none => none

/-- The check `!error && data.session?.access_token` applied to the outcome of
a refreshSession()/getSession() call. -/
def resToken : Res (Option Session) → Option String
  | .ok sess => sessionToken sess
  | .err _ => none
  | .threw => none

/-- The value found in chrome.storage.local under the key 'fitly-auth-token':
missing (or falsy), a string on which JSON.parse throws, or a parsed object
whose access_token / refresh_token fields may each be absent. -/
inductive StoredValue where
  | absent
  | unparseable
  | parsed (access_token : Option String) (refresh_token : Option String)
  deriving Repr, DecidableEq

/-- Outcome of an awaited call that either resolves or rejects (chrome.storage
get, fetch): no `{ error }` field is read from these. -/
inductive IoRes (α : Type) where
  | ok : α → IoRes α
  | reject : IoRes α
  deriving Repr, DecidableEq

/-- JS truthiness of an optional string field such as `parsed?.refresh_token`. -/
def optTruthy : Option String → Bool
  | some t => t != ""
  | none => false

/-- The external calls a single `_doRefresh` run can make, in program order:
primary `supabase.auth.refreshSession()`, the storage read, the
`supabase.auth.setSession(...)` rescue install, and the retried
`supabase.auth.refreshSession()`. -/
inductive Action where
  | primaryRefresh
  | storageRead
  | setSession
  | retryRefresh
  deriving Repr, DecidableEq

/-- The environment one `_doRefresh` execution interacts with: the outcome of
the primary refreshSession(), of the chrome.storage.local.get, of the
setSession rescue install, and of the retried refreshSession(). -/
structure RefreshEnv where
  refreshSession1 : Res (Option Session)
  storageGet : IoRes StoredValue
  setSession : Res Unit
  refreshSession2 : Res (Option Session)
  deriving Repr, DecidableEq

/-- Result of a `_doRefresh` run: the returned token (null on failure) plus
the trace of external calls actually issued, in order. -/
structure RefreshRun where
  token : Option String
  trace : List Action
  deriving Repr, DecidableEq

/-- The rescuable-session test of ATTEMPT 2: storage resolved to a parsed
object with a truthy refresh_token.  Returns the access_token/refresh_token
pair handed to setSession, or none when the rescue must fail permanently
(absent raw value, JSON.parse throwing, missing refresh_token, or the get
call itself rejecting). -/
def rescuableSession : IoRes StoredValue → Option (Option String × String)
  | .ok (.parsed a (some r)) => if r = "" then none else some (a, r)
  | _ => none

/-- ATTEMPT 2 of `_doRefresh` (storage rescue): read the serialized session
from chrome.storage.local; fail permanently when it is absent, unparseable or
lacks a refresh_token; otherwise install it via setSession and, when that
succeeds, retry refreshSession() exactly once.  Every exception is caught and
becomes a null return. -/
def _rescue (env : RefreshEnv) : RefreshRun :=
  match rescuableSession env.storageGet with
  | none => ⟨none, [.primaryRefresh, .storageRead]⟩
  | some _ =>
    match env.setSession with
    | .ok _ =>
      match resToken env.refreshSession2 with
      | some tok => ⟨some tok, [.primaryRefresh, .storageRead, .setSession, .retryRefresh]⟩
      | none => ⟨none, [.primaryRefresh, .storageRead, .setSession, .retryRefresh]⟩
    | .err _ => ⟨none, [.primaryRefresh, .storageRead, .setSession]⟩
    | .threw => ⟨none, [.primaryRefresh, .storageRead, .setSession]⟩

/-- Shallow embedding of `_doRefresh()`: ATTEMPT 1 is the primary
refreshSession(); only if its outcome fails the `!error &&
data.session?.access_token` test (including a thrown exception, which the code
catches) does control fall through to the storage rescue. -/
def _doRefresh (env : RefreshEnv) : RefreshRun :=
  match resToken env.refreshSession1 with
  | some tok => ⟨some tok, [.primaryRefresh]⟩
  | none => _rescue env

/-- Shallow embedding of one sequential call to
`refreshAuthToken(_refreshToken)`.  `inFlight` models the module-level
`_refreshPromise`: `some o` is an in-flight refresh promise that will settle
with outcome `o`.  STEP 1: when a refresh is in flight the caller awaits it
(a rejection would yield null, but `_doRefresh` never rejects).  STEP 2:
otherwise this caller runs `_doRefresh` and the finally block clears the
marker.  The `_refreshToken` parameter mirrors the source signature. -/
def refreshAuthToken (_refreshToken : Option String)
    (inFlight : Option (Option String)) (env : RefreshEnv) : Option String :=
  match inFlight with
  | some outcome => outcome
  | none => (_doRefresh env).token

/-- Environment of one `getAuthToken()` call: the getSession() outcome and,
when the TTL test triggers a refresh, the refresh environment.  Sequential
calls start with `_refreshPromise = null`, so the embedded refresh runs
`_doRefresh` directly. -/
structure GetTokenEnv where
  getSession : Res (Option Session)
  refresh : RefreshEnv
  deriving Repr, DecidableEq

/-- Shallow embedding of `getAuthToken()`.  Totality of this function is the
never-throws property: the outer try/catch and the `if (error)` branch both
map to `none`, and every other path returns a token or `none`. -/
def getAuthToken (env : GetTokenEnv) (now : Int) : Option String :=
  match env.getSession with
  | .threw => none
  | .err _ => none
  | .ok sess =>
    match sess with
    | none => none
    | some s =>
      if s.access_token = "" then none
      else
        let ttl := ttlOf s.expires_at now
        if ttl ≤ CLOCK_SKEW_TOLERANCE_S then
          match refreshAuthToken none none env.refresh with
          | some freshToken => some freshToken
          | none => if ttl > 0 then some s.access_token else none
        else some s.access_token

/-- An Error object as thrown by forceRefreshToken: message plus the optional
machine-readable errorCode field. -/
structure JsError where
  message : String
  errorCode : Option String
  deriving Repr, DecidableEq

/-- Result of forceRefreshToken: a returned token or a thrown Error. -/
inductive ForceResult where
  | ok : String → ForceResult
  | thrown : JsError → ForceResult
  deriving Repr, DecidableEq

/-- A forceRefreshToken run together with the number of refreshAuthToken()
invocations it performed (0 on the fast path, 1 otherwise). -/
structure ForceOutcome where
  result : ForceResult
  refreshCalls : Nat
  deriving Repr, DecidableEq

/-- Environment of one `forceRefreshToken` call: the initial getSession() of
the TTL fast path, the refresh environment, and the getSession() of the
fallback re-check after a failed refresh. -/
structure ForceEnv where
  getSession1 : Res (Option Session)
  refresh : RefreshEnv
  getSession2 : Res (Option Session)
  deriving Repr, DecidableEq

/-- The `!bypassTTL` fast path of `forceRefreshToken`: returns the current
access token when a session with a truthy token exists and its TTL is at
least 900 seconds; a thrown getSession is caught and an absent session falls
through to the refresh. -/
def ttlCheckToken (r : Res (Option Session)) (now : Int) : Option String :=
  match r with
  | .ok (some s) =>
    if s.access_token = "" then none
    else if ttlOf s.expires_at now ≥ 900 then some s.access_token
    else none
  | _ => none

/-- Models `fallbackSession.expires_at ? Math.floor((expires_at * 1000 -
Date.now()) / 1000) : 0` from the forceRefreshToken fallback — note that a
falsy (absent or zero) expiry yields the literal 0, not a computed quotient. -/
def fallbackTTL (expires_at : Option Int) (now : Int) : Int :=
  match expires_at with
  | some v => if v = 0 then 0 else (v * 1000 - now).fdiv 1000
  | none => 0

/-- The fallback re-check of `forceRefreshToken` after a failed refresh:
return the current access token when a session with a truthy token exists and
its fallbackTTL is strictly positive; exceptions are swallowed by the empty
catch and everything else falls through to the thrown error. -/
def fallbackCheck (r : Res (Option Session)) (now : Int) : Option String :=
  match r with
  | .ok (some s) =>
    if s.access_token = "" then none
    else if fallbackTTL s.expires_at now > 0 then some s.access_token
    else none
  | _ => none

/-- Shallow embedding of `forceRefreshToken(bypassTTL)`: TTL fast path unless
bypassed, then one refreshAuthToken() call, then the degraded fallback, and
finally the thrown Error with errorCode REFRESH_FAILED. -/
def forceRefreshToken (bypassTTL : Bool) (env : ForceEnv) (now : Int) : ForceOutcome :=
  match (if bypassTTL then none else ttlCheckToken env.getSession1 now) with
  | some tok => ⟨.ok tok, 0⟩
  | none =>
    match refreshAuthToken none none env.refresh with
    | some freshToken => ⟨.ok freshToken, 1⟩
    | none =>
      match fallbackCheck env.getSession2 now with
      | some tok => ⟨.ok tok, 1⟩
      | none =>
        ⟨.thrown ⟨"Token refresh failed: all refresh attempts failed",
                  some "REFRESH_FAILED"⟩, 1⟩

/-- A fetch Response: its HTTP status and an opaque payload standing for the
rest of the object, so that "returned unchanged" is equality. -/
structure Response where
  status : Int
  body : String
  deriving Repr, DecidableEq

/-- Environment of one `makeAuthenticatedRequest` call: the getAuthToken
environment, the first fetch outcome, the refresh environment used on a 401,
and the retried fetch outcome. -/
structure MkReqEnv where
  tokenEnv : GetTokenEnv
  fetch1 : IoRes Response
  refresh : RefreshEnv
  fetch2 : IoRes Response
  deriving Repr, DecidableEq

/-- Result of makeAuthenticatedRequest: a Response, the thrown
Error('Unauthorized'), or a propagated fetch rejection (the function installs
no handler around its fetch calls). -/
inductive ReqResult where
  | ok : Response → ReqResult
  | unauthorizedErr : JsError → ReqResult
  | fetchThrew : ReqResult
  deriving Repr, DecidableEq

/-- A makeAuthenticatedRequest run together with the bearer token of every
fetch actually issued, in order. -/
structure ReqRun where
  result : ReqResult
  sentTokens : List String
  deriving Repr, DecidableEq

/-- Shallow embedding of `makeAuthenticatedRequest(url, options)`: obtain a
token (throw Unauthorized when none), fetch with the bearer token, and on a
401 perform one refreshAuthToken(); when it yields a token, retry the fetch
once with the new token and return that second outcome as-is; otherwise
return the original 401 response. -/
def makeAuthenticatedRequest (env : MkReqEnv) (now : Int) : ReqRun :=
  match getAuthToken env.tokenEnv now with
  | none => ⟨.unauthorizedErr ⟨"Unauthorized", none⟩, []⟩
  | some token =>
    match env.fetch1 with
    | .reject => ⟨.fetchThrew, [token]⟩
    | .ok response =>
      if response.status = 401 then
        match refreshAuthToken none none env.refresh with
        | some newToken =>
          match env.fetch2 with
          | .reject => ⟨.fetchThrew, [token, newToken]⟩
          | .ok r2 => ⟨.ok r2, [token, newToken]⟩
        | none => ⟨.ok response, [token]⟩
      else ⟨.ok response, [token]⟩

/-!
Interleaved refresh callers.  The host is single-threaded and cooperative:
each `refreshAuthToken` call runs its synchronous prefix — the
`if (_refreshPromise)` test and, when the marker is empty, the assignment
`_refreshPromise = _doRefresh()` — atomically before suspending on `await`.
An execution is therefore a sequence of events: caller arrivals interleaved
before the in-flight `_doRefresh` settles, then the settlement, which wakes
every awaiter with the same outcome and whose awaiting acquirer clears the
marker in its finally block.
-/

/-- The module-level state shared by concurrent refreshAuthToken callers:
whether `_refreshPromise` is non-null, how many `_doRefresh` executions have
been started, which callers are awaiting the in-flight promise, and the
outcomes already delivered to settled callers. -/
structure MutexState where
  inFlight : Bool
  execCount : Nat
  waiters : List Nat
  results : List (Nat × Option String)
  deriving Repr, DecidableEq

/-- Initial module state: `_refreshPromise = null`, nothing executed. -/
def MutexState.init : MutexState := ⟨false, 0, [], []⟩

/-- An event of the interleaved semantics: a caller entering
refreshAuthToken, or the in-flight `_doRefresh` settling with an outcome. -/
inductive RefreshEvent where
  | arrive : Nat → RefreshEvent
  | settle : Option String → RefreshEvent
  deriving Repr, DecidableEq

/-- One step: an arriving caller finds the marker set and awaits the existing
promise (STEP 1), or finds it empty, starts `_doRefresh`, installs the marker
and awaits its own promise (STEP 2); a settlement delivers the one outcome to
every awaiter and clears the marker. -/
def refreshStep (s : MutexState) : RefreshEvent → MutexState
  | .arrive c =>
    if s.inFlight then
      { s with waiters := s.waiters ++ [c] }
    else
      { inFlight := true, execCount := s.execCount + 1, waiters := [c],
        results := s.results }
  | .settle o =>
    if s.inFlight then
      { inFlight := false, execCount := s.execCount, waiters := [],
        results := s.results ++ s.waiters.map (fun c => (c, o)) }
    else s

/-- Run a sequence of refresh events from the initial module state. -/
def runRefresh (events : List RefreshEvent) : MutexState :=
  events.foldl refreshStep MutexState.init

/-!
The Session Ready Gate (session_ready_gate.js): `sessionReady` is a promise
created once per process, `markSessionReady()` calls its captured resolver.
The state records whether the promise is settled, which awaiters are
suspended on it, and which have been resumed.
-/

/-- State of the sessionReady promise: settled flag, suspended awaiters,
resumed awaiters. -/
structure GateState where
  settled : Bool
  waiters : List Nat
  resumed : List Nat
  deriving Repr, DecidableEq

/-- Initial gate state at process creation: the promise is pending. -/
def GateState.init : GateState := ⟨false, [], []⟩

/-- Shallow embedding of `markSessionReady()`: it invokes `_resolve()`.
Resolving a pending promise settles it and schedules every suspended awaiter
to resume; resolving an already-settled promise is a no-op. -/
def markSessionReady (s : GateState) : GateState :=
  if s.settled then s
  else { settled := true, waiters := [], resumed := s.resumed ++ s.waiters }

/-- Caller `c` executes `await sessionReady`: it resumes immediately when the
promise is already settled, and suspends until markSessionReady otherwise. -/
def awaitSessionReady (c : Nat) (s : GateState) : GateState :=
  if s.settled then { s with resumed := s.resumed ++ [c] }
  else { s with waiters := s.waiters ++ [c] }

/-- The two operations the gate exposes. -/
inductive GateOp where
  | mark : GateOp
  | awaitReady : Nat → GateOp
  deriving Repr, DecidableEq

/-- Apply one gate operation. -/
def gateApply (s : GateState) : GateOp → GateState
  | .mark => markSessionReady s
  | .awaitReady c => awaitSessionReady c s

/-!
Concrete fixtures used to evaluate the embedded functions on closed inputs.
All times are epoch milliseconds; expiries are epoch seconds, matching the
`expires_at * 1000` conversion in the source.
-/

/-- A session expiring exactly 900 s after time 0. -/
def sessBoundary : Session := ⟨"current-token", "rt-1", some 900⟩

/-- A session expiring 100 s after time 0 (inside the degraded-fallback
window). -/
def sessFallback : Session := ⟨"old-token", "rt-old", some 100⟩

/-- A session expiring 30 s after time 0 (inside the 60 s proactive-refresh
window but not yet expired). -/
def sessNearExpiry : Session := ⟨"near-token", "rt-near", some 30⟩

/-- A session expiring far in the future. -/
def sessLongLived : Session := ⟨"live-token", "rt-live", some 100000⟩

/-- A session that at time 31000 ms appears expired by 30 s — inside the 60 s
clock-skew window. -/
def sessSkew : Session := ⟨"skew-token", "rt-skew", some 1⟩

/-- A refresh environment in which the primary refresh errors and storage is
empty, so every refresh attempt fails. -/
def envRefreshFail : RefreshEnv :=
  ⟨.err "refresh failed", .ok .absent, .ok (), .err "still failing"⟩

/-- A refresh environment in which the primary refresh succeeds with a fresh
session. -/
def envRefreshOk : RefreshEnv :=
  ⟨.ok (some ⟨"fresh-token", "rt-2", some 99999⟩), .ok .absent, .ok (), .err "unused"⟩

/-- A refresh environment exercising the storage rescue: the primary refresh
reports the missing-session error, storage holds a serialized session with a
refresh token, setSession succeeds and the retried refresh succeeds. -/
def envRescue : RefreshEnv :=
  ⟨.err "Auth session missing",
   .ok (.parsed (some "stored-at") (some "stored-rt")),
   .ok (),
   .ok (some ⟨"rescued-token", "rt-new", some 99999⟩)⟩

/-- forceRefreshToken fixture: session at the 900 s boundary, failing
refresh. -/
def envC2 : ForceEnv := ⟨.ok (some sessBoundary), envRefreshFail, .ok none⟩

/-- forceRefreshToken fixture: no initial session, failing refresh, fallback
session still valid for 100 s. -/
def envC3 : ForceEnv := ⟨.ok none, envRefreshFail, .ok (some sessFallback)⟩

/-- forceRefreshToken fixture: failing refresh and no fallback session. -/
def envC3b : ForceEnv := ⟨.ok none, envRefreshFail, .ok none⟩

/-- getAuthToken fixture: near-expiry session with a succeeding refresh. -/
def envC4 : GetTokenEnv := ⟨.ok (some sessNearExpiry), envRefreshOk⟩

/-- getAuthToken fixture for the skew window: session 30 s past expiry at the
chosen time, every refresh failing. -/
def envC6get : GetTokenEnv := ⟨.ok (some sessSkew), envRefreshFail⟩

/-- forceRefreshToken fixture for the skew window: refresh fails and the
fallback session is 30 s past expiry at the chosen time. -/
def envC6force : ForceEnv := ⟨.ok none, envRefreshFail, .ok (some sessSkew)⟩

/-- makeAuthenticatedRequest fixture: valid token, first fetch answers 401,
refresh succeeds, retried fetch answers 500 (a failing retry, returned
as-is). -/
def envC7 : MkReqEnv :=
  ⟨⟨.ok (some sessLongLived), envRefreshFail⟩, .ok ⟨401, "denied"⟩,
   envRefreshOk, .ok ⟨500, "retry-failed"⟩⟩

/-- makeAuthenticatedRequest fixture: valid token, first fetch answers 401,
refresh fails. -/
def envC9 : MkReqEnv :=
  ⟨⟨.ok (some sessLongLived), envRefreshFail⟩, .ok ⟨401, "denied"⟩,
   envRefreshFail, .ok ⟨200, "unused"⟩⟩

/-!
Helper lemmas shared by the theorems below.
-/

/-- Whenever the TTL fast path does not return early, forceRefreshToken
performs exactly one refreshAuthToken() invocation, whatever its outcome. -/
lemma forceRefresh_one_call (b : Bool) (env : ForceEnv) (now : Int)
    (h : (if b then none else ttlCheckToken env.getSession1 now) = none) :
    (forceRefreshToken b env now).refreshCalls = 1 := by
  unfold forceRefreshToken
  rw [h]
  cases refreshAuthToken none none env.refresh with
  | some t => rfl
  | none => cases fallbackCheck env.getSession2 now <;> rfl

/-- A sequential refreshAuthToken call (no refresh in flight) returns exactly
the `_doRefresh` outcome. -/
lemma refreshAuthToken_none_inFlight (a : Option String) (env : RefreshEnv) :
    refreshAuthToken a none env = (_doRefresh env).token := rfl

/-- After markSessionReady the gate is settled. -/
lemma markSessionReady_settled (s : GateState) :
    (markSessionReady s).settled = true := by
  unfold markSessionReady
  split
  · assumption
  · rfl

/-- Consecutive arrivals while a refresh is in flight only enqueue waiters:
the in-flight marker, the execution count and the delivered results are
untouched. -/
lemma arrivals_preserve (cs : List Nat) (s : MutexState) (h : s.inFlight = true) :
    List.foldl refreshStep s (cs.map RefreshEvent.arrive) =
      { s with waiters := s.waiters ++ cs } := by
  induction cs generalizing s with
  | nil => simp
  | cons c cs ih =>
    simp only [List.map_cons, List.foldl_cons]
    have hstep : refreshStep s (.arrive c) = { s with waiters := s.waiters ++ [c] } := by
      simp [refreshStep, h]
    rw [hstep, ih { s with waiters := s.waiters ++ [c] } (by simpa using h)]
    simp

/-- C10: the `_refreshToken` parameter of refreshAuthToken is never read —
calls from the same module state and environment with any two argument values
produce the same result; the refresh only ever uses the identity client's own
state or the storage-rescue path. -/
theorem refreshAuthToken_param_unused (a b : Option String)
    (inFlight : Option (Option String)) (env : RefreshEnv) :
    refreshAuthToken a inFlight env = refreshAuthToken b inFlight env := rfl

/-- C8: the Session Ready Gate is a one-shot latch — markSessionReady is
idempotent (a second call changes nothing), awaiting the gate after
markSessionReady resumes the caller immediately without suspending it, and
once READY no gate operation ever returns the state to NOT_READY. -/
theorem session_ready_gate_latch (s : GateState) (c : Nat) (op : GateOp) :
    markSessionReady (markSessionReady s) = markSessionReady s
    ∧ (markSessionReady s).settled = true
    ∧ awaitSessionReady c (markSessionReady s) =
        { markSessionReady s with
            resumed := (markSessionReady s).resumed ++ [c] }
    ∧ (awaitSessionReady c (markSessionReady s)).waiters =
        (markSessionReady s).waiters
    ∧ (gateApply (markSessionReady s) op).settled = true := by
  have hset := markSessionReady_settled s
  refine ⟨?_, hset, ?_, ?_, ?_⟩
  · show markSessionReady (markSessionReady s) = markSessionReady s
    unfold markSessionReady
    split
    · rfl
    · simp
  · unfold awaitSessionReady
    simp [hset]
  · unfold awaitSessionReady
    simp [hset]
  · cases op with
    | mark =>
      show (markSessionReady (markSessionReady s)).settled = true
      exact markSessionReady_settled _
    | awaitReady d =>
      show (awaitSessionReady d (markSessionReady s)).settled = true
      unfold awaitSessionReady
      simp [hset]

/-- C2: forceRefreshToken(false) on a session whose TTL is at least 900 s
returns the existing access token with zero refresh calls; the boundary is
inclusive, and a refresh is triggered (exactly one refreshAuthToken call)
precisely when TTL < 900 s, when there is no session, or when bypassTTL is
true. -/
theorem forceRefresh_ttl_gate (env : ForceEnv) (now : Int) (s : Session)
    (hs : env.getSession1 = .ok (some s)) (ht : s.access_token ≠ "") :
    (900 ≤ ttlOf s.expires_at now →
      forceRefreshToken false env now = ⟨.ok s.access_token, 0⟩)
    ∧ (ttlOf s.expires_at now < 900 →
      (forceRefreshToken false env now).refreshCalls = 1)
    ∧ (∀ env2 : ForceEnv, env2.getSession1 = .ok none →
      (forceRefreshToken false env2 now).refreshCalls = 1)
    ∧ (∀ env2 : ForceEnv, (forceRefreshToken true env2 now).refreshCalls = 1) := by
  refine ⟨?_, ?_, ?_, ?_⟩
  · intro h
    unfold forceRefreshToken
    simp [ttlCheckToken, hs, ht, h]
  · intro h
    exact forceRefresh_one_call false env now
      (by simp [ttlCheckToken, hs, ht, not_le.mpr h])
  · intro env2 h2
    exact forceRefresh_one_call false env2 now (by simp [ttlCheckToken, h2])
  · intro env2
    exact forceRefresh_one_call true env2 now rfl

/-- C2 witness: at TTL exactly 900 s the current token is returned with zero
refresh calls, and with bypassTTL the single refresh call happens. -/
theorem forceRefresh_ttl_gate_witness :
    forceRefreshToken false envC2 0 = ⟨.ok "current-token", 0⟩
    ∧ (forceRefreshToken true envC2 0).refreshCalls = 1 := by
  have h := forceRefresh_ttl_gate envC2 0 sessBoundary rfl (by decide)
  exact ⟨h.1 (by decide), h.2.2.2 envC2⟩

/-- C3: when the refresh invoked by forceRefreshToken fails, the current
session is re-checked — a session whose fallback TTL is strictly positive is
returned as a degraded fallback, and otherwise an Error with errorCode
REFRESH_FAILED whose message starts with "Token refresh failed" is thrown. -/
theorem forceRefresh_failed_refresh_ladder (b : Bool) (env : ForceEnv) (now : Int)
    (hgate : (if b then none else ttlCheckToken env.getSession1 now) = none)
    (hfail : (_doRefresh env.refresh).token = none) :
    (∀ s, env.getSession2 = .ok (some s) → s.access_token ≠ "" →
        0 < fallbackTTL s.expires_at now →
        forceRefreshToken b env now = ⟨.ok s.access_token, 1⟩)
    ∧ (fallbackCheck env.getSession2 now = none →
        ∃ e, forceRefreshToken b env now = ⟨.thrown e, 1⟩ ∧
          e.errorCode = some "REFRESH_FAILED" ∧
          ∃ rest, e.message = "Token refresh failed" ++ rest) := by
  have hr : refreshAuthToken none none env.refresh = none := hfail
  constructor
  · intro s hs ht httl
    unfold forceRefreshToken
    rw [hgate, hr]
    simp [fallbackCheck, hs, ht, httl]
  · intro hfb
    refine ⟨⟨"Token refresh failed: all refresh attempts failed",
             some "REFRESH_FAILED"⟩, ?_, rfl,
            ": all refresh attempts failed", by decide⟩
    unfold forceRefreshToken
    rw [hgate, hr, hfb]

/-- C3 witness: with a failing refresh, a fallback session still valid for
100 s is returned; with no fallback session the REFRESH_FAILED error is
thrown. -/
theorem forceRefresh_failed_refresh_ladder_witness :
    forceRefreshToken true envC3 0 = ⟨.ok "old-token", 1⟩
    ∧ ∃ e, forceRefreshToken true envC3b 0 = ⟨.thrown e, 1⟩ ∧
        e.errorCode = some "REFRESH_FAILED" ∧
        ∃ rest, e.message = "Token refresh failed" ++ rest := by
  constructor
  · exact (forceRefresh_failed_refresh_ladder true envC3 0 rfl (by decide)).1
      sessFallback rfl (by decide) (by decide)
  · exact (forceRefresh_failed_refresh_ladder true envC3b 0 rfl (by decide)).2 rfl

/-- C4: getAuthToken never throws — it is a total function into an optional
token.  With no usable session it returns none; with TTL ≤ 60 s it refreshes
and returns the new token on success, falls back to the still-valid current
token when the refresh fails and TTL > 0, and returns none when the refresh
fails and TTL ≤ 0; with TTL > 60 s it returns the current token unchanged. -/
theorem getAuthToken_behavior (env : GetTokenEnv) (now : Int) :
    ((∀ s : Session, env.getSession ≠ .ok (some s)) → getAuthToken env now = none)
    ∧ ∀ s : Session, env.getSession = .ok (some s) →
      (s.access_token = "" → getAuthToken env now = none)
      ∧ (s.access_token ≠ "" →
        (∀ t, ttlOf s.expires_at now ≤ CLOCK_SKEW_TOLERANCE_S →
          (_doRefresh env.refresh).token = some t →
          getAuthToken env now = some t)
        ∧ (ttlOf s.expires_at now ≤ CLOCK_SKEW_TOLERANCE_S →
          (_doRefresh env.refresh).token = none →
          0 < ttlOf s.expires_at now →
          getAuthToken env now = some s.access_token)
        ∧ (ttlOf s.expires_at now ≤ CLOCK_SKEW_TOLERANCE_S →
          (_doRefresh env.refresh).token = none →
          ttlOf s.expires_at now ≤ 0 →
          getAuthToken env now = none)
        ∧ (CLOCK_SKEW_TOLERANCE_S < ttlOf s.expires_at now →
          getAuthToken env now = some s.access_token)) := by
  constructor
  · intro h
    unfold getAuthToken
    cases hg : env.getSession with
    | ok sess =>
      cases sess with
      | none => rfl
      | some s => exact absurd hg (h s)
    | err m => rfl
    | threw => rfl
  · intro s hs
    constructor
    · intro ht
      unfold getAuthToken
      rw [hs]
      simp [ht]
    · intro ht
      refine ⟨?_, ?_, ?_, ?_⟩
      · intro t httl hrf
        unfold getAuthToken
        rw [hs]
        simp only [ht, if_neg, if_pos httl, refreshAuthToken_none_inFlight, hrf]
        simp [ht]
      · intro httl hrf hpos
        unfold getAuthToken
        rw [hs]
        simp [ht, httl, refreshAuthToken_none_inFlight, hrf, hpos]
      · intro httl hrf hexp
        unfold getAuthToken
        rw [hs]
        simp [ht, httl, refreshAuthToken_none_inFlight, hrf, not_lt.mpr hexp]
      · intro httl
        unfold getAuthToken
        rw [hs]
        simp [ht, not_le.mpr httl]

/-- C4 witness: a session 30 s from expiry triggers the refresh and the fresh
token is returned; the same session with a failing refresh falls back to the
still-valid current token. -/
theorem getAuthToken_behavior_witness :
    getAuthToken envC4 0 = some "fresh-token"
    ∧ getAuthToken ⟨.ok (some sessNearExpiry), envRefreshFail⟩ 0 = some "near-token" := by
  constructor
  · exact (((getAuthToken_behavior envC4 0).2 sessNearExpiry rfl).2
      (by decide)).1 "fresh-token" (by decide) rfl
  · exact (((getAuthToken_behavior ⟨.ok (some sessNearExpiry), envRefreshFail⟩ 0).2
      sessNearExpiry rfl).2 (by decide)).2.1 (by decide) (by decide) (by decide)

/-- C5: the refresh body attempts exactly two tiers in strict order — the
primary refreshSession, then, only on its failure, the storage rescue, which
fails permanently when no stored refresh token is usable and otherwise
installs the stored session via setSession before the single retried
refresh, whose token (or none) is the final outcome; every possible trace is
a prefix of this ladder. -/
theorem doRefresh_two_tier (env : RefreshEnv) :
    (∀ t, resToken env.refreshSession1 = some t →
      _doRefresh env = ⟨some t, [.primaryRefresh]⟩)
    ∧ (resToken env.refreshSession1 = none →
      rescuableSession env.storageGet = none →
      _doRefresh env = ⟨none, [.primaryRefresh, .storageRead]⟩)
    ∧ (resToken env.refreshSession1 = none →
      ∀ p, rescuableSession env.storageGet = some p →
      env.setSession = .ok () →
      _doRefresh env = ⟨resToken env.refreshSession2,
        [.primaryRefresh, .storageRead, .setSession, .retryRefresh]⟩)
    ∧ (resToken env.refreshSession1 = none →
      ∀ p, rescuableSession env.storageGet = some p →
      env.setSession ≠ .ok () →
      _doRefresh env = ⟨none, [.primaryRefresh, .storageRead, .setSession]⟩)
    ∧ ((_doRefresh env).trace = [.primaryRefresh]
      ∨ (_doRefresh env).trace = [.primaryRefresh, .storageRead]
      ∨ (_doRefresh env).trace = [.primaryRefresh, .storageRead, .setSession]
      ∨ (_doRefresh env).trace =
          [.primaryRefresh, .storageRead, .setSession, .retryRefresh]) := by
  refine ⟨?_, ?_, ?_, ?_, ?_⟩
  · intro t h1
    unfold _doRefresh
    rw [h1]
  · intro h1 h2
    unfold _doRefresh _rescue
    rw [h1, h2]
  · intro h1 p h2 h3
    unfold _doRefresh _rescue
    rw [h1, h2, h3]
    cases resToken env.refreshSession2 <;> rfl
  · intro h1 p h2 h3
    unfold _doRefresh _rescue
    rw [h1, h2]
    cases hs : env.setSession with
    | ok u => exact absurd hs h3
    | err m => rfl
    | threw => rfl
  · unfold _doRefresh _rescue
    cases resToken env.refreshSession1 with
    | some t => simp
    | none =>
      cases rescuableSession env.storageGet with
      | none => simp
      | some p =>
        cases env.setSession with
        | ok u => cases resToken env.refreshSession2 <;> simp
        | err m => simp
        | threw => simp

/-- C5 witness: with an empty in-memory session but a stored session holding
a refresh token, the rescue installs it and the retried refresh returns the
rescued token after the full four-step ladder. -/
theorem doRefresh_two_tier_witness :
    _doRefresh envRescue = ⟨some "rescued-token",
      [.primaryRefresh, .storageRead, .setSession, .retryRefresh]⟩ := by
  have h := (doRefresh_two_tier envRescue).2.2.1 rfl
    (some "stored-at", "stored-rt") (by decide) rfl
  exact h.trans (by decide)

/-- C6 evaluation at the failing input: a token that appears expired by only
30 s — within the documented 60 s clock-skew window — combined with a failing
refresh makes getAuthToken return no token and makeRefresh throw
REFRESH_FAILED, instead of being treated as still valid as the uniform
clock-skew rule requires; the tolerance constant is only ever compared
against the TTL as a refresh trigger, never at the expired-decision
boundary. -/
theorem clock_skew_not_applied_within_window :
    ttlOf sessSkew.expires_at 31000 = -30
    ∧ (-60 : Int) < -30
    ∧ getAuthToken envC6get 31000 = none
    ∧ forceRefreshToken true envC6force 31000 =
      ⟨.thrown ⟨"Token refresh failed: all refresh attempts failed",
        some "REFRESH_FAILED"⟩, 1⟩ := by
  refine ⟨by decide, by decide, by decide, by decide⟩

/-- C7: makeAuthenticatedRequest fails with Unauthorized before any fetch
when no token is available; it never issues more than two fetches; on a 401
with a succeeding refresh it retries exactly once with the new token and
returns that second outcome unmodified; and on any non-401 response it
returns it directly with the single original fetch. -/
theorem makeAuthenticatedRequest_behavior (env : MkReqEnv) (now : Int) :
    (getAuthToken env.tokenEnv now = none →
      makeAuthenticatedRequest env now =
        ⟨.unauthorizedErr ⟨"Unauthorized", none⟩, []⟩)
    ∧ (makeAuthenticatedRequest env now).sentTokens.length ≤ 2
    ∧ (∀ t r t2, getAuthToken env.tokenEnv now = some t →
      env.fetch1 = .ok r → r.status = 401 →
      (_doRefresh env.refresh).token = some t2 →
      makeAuthenticatedRequest env now =
        ⟨match env.fetch2 with
          | .ok r2 => .ok r2
          | .reject => .fetchThrew, [t, t2]⟩)
    ∧ (∀ t r, getAuthToken env.tokenEnv now = some t →
      env.fetch1 = .ok r → r.status ≠ 401 →
      makeAuthenticatedRequest env now = ⟨.ok r, [t]⟩) := by
  refine ⟨?_, ?_, ?_, ?_⟩
  · intro h
    unfold makeAuthenticatedRequest
    rw [h]
  · unfold makeAuthenticatedRequest
    cases getAuthToken env.tokenEnv now with
    | none => simp
    | some t =>
      cases env.fetch1 with
      | reject => simp
      | ok r =>
        by_cases h401 : r.status = 401
        · simp only [h401, if_pos]
          cases refreshAuthToken none none env.refresh with
          | some t2 => cases env.fetch2 <;> simp
          | none => simp
        · simp [h401]
  · intro t r t2 htok hf h401 hrf
    unfold makeAuthenticatedRequest
    rw [htok, hf]
    simp only [h401, if_pos, refreshAuthToken_none_inFlight, hrf]
    cases env.fetch2 <;> rfl
  · intro t r htok hf h401
    unfold makeAuthenticatedRequest
    rw [htok, hf]
    simp [h401]

/-- C7 witness: a 401 response followed by a successful refresh leads to
exactly one retry with the fresh token, and the failing 500 retry response is
returned to the caller as-is. -/
theorem makeAuthenticatedRequest_behavior_witness :
    makeAuthenticatedRequest envC7 0 =
      ⟨.ok ⟨500, "retry-failed"⟩, ["live-token", "fresh-token"]⟩ := by
  have h := (makeAuthenticatedRequest_behavior envC7 0).2.2.1 "live-token"
    ⟨401, "denied"⟩ "fresh-token" (by decide) rfl rfl rfl
  exact h.trans (by decide)

/-- C9: when the first response is a 401 and the subsequent refresh yields no
token, makeAuthenticatedRequest returns the original 401 response object
unchanged — it neither throws nor retries the request. -/
theorem original_401_returned_when_refresh_fails (env : MkReqEnv) (now : Int)
    (t : String) (r : Response)
    (htok : getAuthToken env.tokenEnv now = some t)
    (hf : env.fetch1 = .ok r) (h401 : r.status = 401)
    (hrf : (_doRefresh env.refresh).token = none) :
    makeAuthenticatedRequest env now = ⟨.ok r, [t]⟩ := by
  unfold makeAuthenticatedRequest
  rw [htok, hf]
  simp [h401, refreshAuthToken_none_inFlight, hrf]

/-- C9 witness: concrete 401 response with all refresh attempts failing — the
original response comes back with only the original fetch issued. -/
theorem original_401_returned_when_refresh_fails_witness :
    makeAuthenticatedRequest envC9 0 = ⟨.ok ⟨401, "denied"⟩, ["live-token"]⟩ :=
  original_401_returned_when_refresh_fails envC9 0 "live-token" ⟨401, "denied"⟩
    (by decide) rfl rfl rfl

/-- C1: at most one refresh is in flight — for any nonempty group of callers
entering refreshAuthToken while no refresh has settled, exactly one
`_doRefresh` execution is started, every caller receives the one settlement
outcome (the same token or the same failure), and the in-flight marker is
clear once the operation settles. -/
theorem refresh_mutex_collapses (callers : List Nat) (o : Option String)
    (h : callers ≠ []) :
    (runRefresh (callers.map RefreshEvent.arrive ++
        [RefreshEvent.settle o])).execCount = 1
    ∧ (runRefresh (callers.map RefreshEvent.arrive ++
        [RefreshEvent.settle o])).inFlight = false
    ∧ (runRefresh (callers.map RefreshEvent.arrive ++
        [RefreshEvent.settle o])).results = callers.map (fun c => (c, o))
    ∧ ∀ c ∈ callers, (c, o) ∈
        (runRefresh (callers.map RefreshEvent.arrive ++
          [RefreshEvent.settle o])).results := by
  cases callers with
  | nil => exact absurd rfl h
  | cons c0 cs =>
    have hrun : runRefresh ((c0 :: cs).map RefreshEvent.arrive ++
        [RefreshEvent.settle o]) =
        ⟨false, 1, [], (c0 :: cs).map (fun c => (c, o))⟩ := by
      unfold runRefresh
      rw [List.foldl_append]
      simp only [List.map_cons, List.foldl_cons]
      have h0 : refreshStep MutexState.init (.arrive c0) =
          ⟨true, 1, [c0], []⟩ := by
        simp [refreshStep, MutexState.init]
      rw [h0, arrivals_preserve cs ⟨true, 1, [c0], []⟩ rfl]
      simp [refreshStep]
    rw [hrun]
    refine ⟨rfl, rfl, rfl, ?_⟩
    intro c hc
    exact List.mem_map_of_mem (fun x => (x, o)) hc

/-- C1 witness: three simultaneous callers and one settlement — a single
execution, a cleared marker, and the same outcome delivered to all three. -/
theorem refresh_mutex_collapses_witness :
    (([7, 8, 9] : List Nat) ≠ [])
    ∧ (runRefresh (([7, 8, 9] : List Nat).map RefreshEvent.arrive ++
        [RefreshEvent.settle (some "new-token")])).execCount = 1
    ∧ (runRefresh (([7, 8, 9] : List Nat).map RefreshEvent.arrive ++
        [RefreshEvent.settle (some "new-token")])).inFlight = false
    ∧ (runRefresh (([7, 8, 9] : List Nat).map RefreshEvent.arrive ++
        [RefreshEvent.settle (some "new-token")])).results =
        ([7, 8, 9] : List Nat).map (fun c => (c, some "new-token")) := by
  have h := refresh_mutex_collapses [7, 8, 9] (some "new-token") (by decide)
  exact ⟨by decide, h.1, h.2.1, h.2.2.1⟩

end Fitly
